import Mathlib

/-!
Verification development for the nfl-player-stats-scraper repository.

The Python modules `src/parser.py`, `src/scraper.py` and `src/validate.py`
are shallowly embedded below.  Python strings are modelled as `List Char`
(called `Str` here) so that every operation is an executable,
kernel-reducible Lean function.  Parsed HTML documents (the output of
BeautifulSoup) are modelled as an ordered tree of element/text nodes, with
`find`/`find_all` as preorder searches over descendants, matching
BeautifulSoup's document-order semantics.  Numeric values produced by
`pandas.to_numeric` are modelled as exact decimals (`Dec`): an integer
mantissa together with a base-ten exponent; `NaN` is modelled as `none`.

The format converter (`src/converter.py`) is deliberately not embedded:
its observable behaviour is governed by pandas' column-level int64/float64
dtype unification and by IEEE-754 double parsing and printing (values such
as `4000` in a mixed column are rewritten as `4000.0`, long decimals are
rounded, large values use scientific notation), floating-point semantics
that this exact-decimal embedding cannot state faithfully.
-/

/-- Python strings are modelled as lists of characters. -/
abbrev Str := List Char

/-- Python `str.strip()`: remove leading and trailing whitespace. -/
def strip (s : Str) : Str :=
  ((s.dropWhile Char.isWhitespace).reverse.dropWhile Char.isWhitespace).reverse

/-- Characters stripped by Python `str.strip('()')`. -/
def isParen (c : Char) : Bool := c == '(' || c == ')'

/-- Python `str.strip('()')`: remove leading and trailing parentheses. -/
def stripParens (s : Str) : Str :=
  ((s.dropWhile isParen).reverse.dropWhile isParen).reverse

/-- Python `str.split()` with no argument: split on runs of whitespace,
discarding empty fields. -/
def splitWs (s : Str) : List Str :=
  (s.splitOnP Char.isWhitespace).filter (fun w => !w.isEmpty)

/-- Python `' '.join(s.split())`: collapse internal whitespace runs to single
spaces (and drop leading/trailing whitespace). -/
def collapseWs (s : Str) : Str :=
  List.intercalate [' '] (splitWs s)

/-- Python `x.replace('%', '').replace(',', '')` from
`NFLStatsParser._convert_to_numeric`: delete every percent sign and comma. -/
def stripPctCommas (s : Str) : Str :=
  s.filter (fun c => !(c == '%' || c == ','))

/-- An exact decimal number `mant / 10 ^ exp`: the model of a numeric value
produced by `pandas.to_numeric` from a decimal string. -/
structure Dec where
  mant : Int
  exp : Nat
deriving DecidableEq, Repr

/-- The rational value of a decimal. -/
def Dec.toRat (d : Dec) : Rat := (d.mant : Rat) / 10 ^ d.exp

/-- Numeric value of a list of decimal digits, most significant first
(leading zeros allowed). -/
def natOfDigits (l : Str) : Nat :=
  l.foldl (fun a c => 10 * a + (c.toNat - 48)) 0

/-- Parse an unsigned decimal literal: digits with at most one decimal
point and at least one digit.  Returns `none` on any other input, the
model of `pandas.to_numeric(..., errors='coerce')` turning a malformed
cell into `NaN`. -/
def parseUnsigned (cs : Str) : Option Dec :=
  if cs.contains '.' then
    let ip := cs.takeWhile (fun c => c != '.')
    let fp := (cs.dropWhile (fun c => c != '.')).drop 1
    if fp.contains '.' then none
    else if ip.all Char.isDigit && fp.all Char.isDigit && !(ip.isEmpty && fp.isEmpty) then
      some ⟨(natOfDigits (ip ++ fp) : Int), fp.length⟩
    else none
  else
    if cs.all Char.isDigit && !cs.isEmpty then
      some ⟨(natOfDigits cs : Int), 0⟩
    else none

/-- Model of `pandas.to_numeric(value, errors='coerce')` on one string:
strip surrounding whitespace, accept an optional sign followed by a
decimal literal, and return `none` (missing / `NaN`) otherwise. -/
def parseNumeric (s : Str) : Option Dec :=
  let cs := strip s
  if cs.head? = some '-' then
    (parseUnsigned (cs.drop 1)).map (fun d => ⟨-d.mant, d.exp⟩)
  else if cs.head? = some '+' then
    parseUnsigned (cs.drop 1)
  else
    parseUnsigned cs

/-- A pandas `Series`: either an object (string) column or a numeric column
whose entries are decimals or missing (`NaN`). -/
inductive Series where
  | strs (l : List Str)
  | nums (l : List (Option Dec))
deriving DecidableEq, Repr

/-- Length of a series. -/
def Series.len : Series → Nat
  | .strs l => l.length
  | .nums l => l.length

/-- The method `NFLStatsParser._convert_to_numeric` (src/parser.py:83-104): a series
that is already numeric is returned as is; otherwise every entry has its
percent signs and commas removed and is coerced with
`pd.to_numeric(errors='coerce')`, malformed entries becoming missing. -/
def convert_to_numeric : Series → Series
  | .nums l => .nums l
  | .strs l => .nums (l.map (fun s => parseNumeric (stripPctCommas s)))

/-- A pandas `DataFrame`: column labels plus one series per column. -/
structure DataFrame where
  headers : List Str
  cols : List Series
deriving DecidableEq, Repr

/-- Number of rows of a data frame (length of its first column;
`0` for a frame with no columns). -/
def DataFrame.nrows (df : DataFrame) : Nat :=
  match df.cols with
  | [] => 0
  | c :: _ => c.len

/-- pandas `DataFrame.empty`: true when the frame has no rows
(or no columns at all). -/
def DataFrame.emptyDf (df : DataFrame) : Bool :=
  df.nrows == 0

/-- Indices of the columns named `YACON`, in order
(`[i for i, col in enumerate(df.columns) if col == 'YACON']`,
src/parser.py:45). -/
def yaconIdxs (hs : List Str) : List Nat :=
  ((hs.enum).filter (fun p => p.2 == "YACON".data)).map (fun p => p.1)

/-- The duplicate-column step of `NFLStatsParser.clean_data`
(src/parser.py:43-51): when the header list contains the name `YACON` at
exactly two positions, the first occurrence becomes `YACON (Rushing)` and
the second `YACON (Receiving)`; otherwise the headers are unchanged. -/
def renameYacon (hs : List Str) : List Str :=
  if hs.contains "YACON".data then
    match yaconIdxs hs with
    | [i, j] => (hs.set i "YACON (Rushing)".data).set j "YACON (Receiving)".data
    | _ => hs
  else hs

/-- The identity columns exempt from numeric coercion
(`['Player', 'Team', 'Pos']`, src/parser.py:55). -/
def identityCols : List Str := ["Player".data, "Team".data, "Pos".data]

/-- The method `NFLStatsParser.clean_data` (src/parser.py:29-58): disambiguate the
duplicated `YACON` header, then coerce every non-identity column to
numeric. -/
def clean_data (df : DataFrame) : DataFrame :=
  let hs := renameYacon df.headers
  { headers := hs,
    cols := (hs.zip df.cols).map
      (fun p => if identityCols.contains p.1 then p.2 else convert_to_numeric p.2) }

/-- The raw table handed from the scraper to the parser:
a dict of headers and data rows (src/scraper.py:163-166). -/
structure RawTable where
  headers : List Str
  data : List (List Str)
deriving DecidableEq, Repr

/-- The method `NFLStatsParser.parse_table` (src/parser.py:13-28): build a column-major
frame from the raw rows (`pd.DataFrame(data, columns=headers)`) and clean
it. -/
def parse_table (t : RawTable) : DataFrame :=
  clean_data
    { headers := t.headers,
      cols := (List.range t.headers.length).map
        (fun j => Series.strs (t.data.map (fun r => r.getD j []))) }

/-- The method `NFLStatsParser.validate_data` (src/parser.py:60-81): raise when the
frame is empty, then when `Player` or `Team` is missing; otherwise return
`True`.  `raise ValueError(msg)` is modelled as `.error msg`. -/
def validate_data (df : DataFrame) : Except Str Bool :=
  if df.emptyDf then .error "DataFrame is empty".data
  else
    let missing := (["Player".data, "Team".data] : List Str).filter
      (fun c => !df.headers.contains c)
    if missing.isEmpty then .ok true
    else .error ("Missing required columns".data)

/-- A parsed HTML node, the model of a BeautifulSoup tag or string:
an element carries its tag name, optional `id` attribute, `class`
attribute (a list of class names) and children, in document order. -/
inductive Node where
  | text (s : Str)
  | elem (tag : Str) (idAttr : Option Str) (classes : List Str) (children : List Node)

mutual

/-- A node followed by all of its descendants, in document (preorder)
order. -/
def selfAndDesc : Node → List Node
  | .text s => [.text s]
  | .elem t i cl ch => .elem t i cl ch :: selfAndDescAll ch

/-- The function `selfAndDesc` over a forest, left to right. -/
def selfAndDescAll : List Node → List Node
  | [] => []
  | n :: ns => selfAndDesc n ++ selfAndDescAll ns

end

/-- The descendants of a node, in document order (a BeautifulSoup
`find`/`find_all` search space: the node itself is not included). -/
def descendants : Node → List Node
  | .text _ => []
  | .elem _ _ _ ch => selfAndDescAll ch

/-- BeautifulSoup `find_all(matching p)`: every descendant satisfying `p`,
in document order. -/
def findNodes (n : Node) (p : Node → Bool) : List Node :=
  (descendants n).filter p

/-- BeautifulSoup `find(matching p)`: the first descendant satisfying `p`,
if any. -/
def findNode (n : Node) (p : Node → Bool) : Option Node :=
  (findNodes n p).head?

/-- Does this node have the given element tag? -/
def hasTag (t : Str) : Node → Bool
  | .elem tg _ _ _ => tg == t
  | .text _ => false

/-- Does this node carry the given `id` attribute? -/
def hasId (s : Str) : Node → Bool
  | .elem _ i _ _ => i == some s
  | .text _ => false

/-- Is the given class name among this node's classes
(`'player-label' in cell.get('class', [])`)? -/
def hasClass (c : Str) : Node → Bool
  | .elem _ _ cls _ => cls.contains c
  | .text _ => false

/-- BeautifulSoup `.text` of a node: the concatenation of every string in
its subtree, in document order. -/
def innerText (n : Node) : Str :=
  ((selfAndDesc n).filterMap (fun m =>
    match m with
    | .text s => some s
    | .elem _ _ _ _ => none)).flatten

/-- How a call of `NFLStatsScraper.extract_table_data` can fail:
`structureError` is the explicit `ValueError` for a missing stats table
(src/scraper.py:111-112); `attrError` is the uncaught `AttributeError`
from `table.find('thead').find_all('tr')` when no `thead` exists
(src/scraper.py:116); `indexError` is the uncaught `IndexError` from
`cells[0]`/`cells[1]` on a body row with fewer than two `td` cells
(src/scraper.py:140-144). -/
inductive ExtractError where
  | structureError
  | attrError
  | indexError
deriving DecidableEq, Repr

/-- The lookup `soup.find` of the table with id `data` (src/scraper.py:109). -/
def findTable (doc : Node) : Option Node :=
  findNode doc (fun n => hasTag "table".data n && hasId "data".data n)

/-- The label of one header cell beyond the first two (src/scraper.py:120-130):
the whitespace-collapsed text of a nested `small` tag when present,
otherwise the cell's full stripped text. -/
def thLabel (th : Node) : Str :=
  match findNode th (hasTag "small".data) with
  | some sm => collapseWs (strip (innerText sm))
  | none => strip (innerText th)

/-- Header derivation of `extract_table_data` (src/scraper.py:114-130):
seed with `Rank`, `Player`, `Team`; when the `thead` holds at least two
rows, append one label per `th` cell beyond the first two of the second
row.  `none` models the `AttributeError` raised when no `thead` exists. -/
def extractHeaders (t : Node) : Option (List Str) :=
  match findNode t (hasTag "thead".data) with
  | none => none
  | some hd =>
    match findNodes hd (hasTag "tr".data) with
    | _ :: r1 :: _ =>
      some ("Rank".data :: "Player".data :: "Team".data ::
        ((findNodes r1 (hasTag "th".data)).drop 2).map thLabel)
    | _ => some ["Rank".data, "Player".data, "Team".data]

/-- Reconstruction of the player/team fields from body cell 1
(src/scraper.py:145-160): with the `player-label` marker class, the name
is the stripped text of a nested `a` (empty when absent) and the team is
the stripped text of a nested `small` with surrounding parentheses
removed (empty when absent); without the marker both are empty. -/
def playerTeam (c : Node) : List Str :=
  if hasClass "player-label".data c then
    [(match findNode c (hasTag "a".data) with
      | some a => strip (innerText a)
      | none => []),
     (match findNode c (hasTag "small".data) with
      | some sm => stripParens (strip (innerText sm))
      | none => [])]
  else [[], []]

/-- One body row of `extract_table_data` (src/scraper.py:137-162): rank from
cell 0, player and team from cell 1, every later cell's stripped text in
order.  A row with fewer than two `td` cells raises `IndexError`. -/
def extractRow (row : Node) : Except ExtractError (List Str) :=
  match findNodes row (hasTag "td".data) with
  | c0 :: c1 :: rest =>
    .ok ((strip (innerText c0) :: playerTeam c1) ++ rest.map (fun c => strip (innerText c)))
  | _ => .error .indexError

/-- The body loop of `extract_table_data`: rows are processed in order and
the first raising row aborts the whole extraction. -/
def extractRows : List Node → Except ExtractError (List (List Str))
  | [] => .ok []
  | r :: rs =>
    match extractRow r with
    | .error e => .error e
    | .ok c =>
      match extractRows rs with
      | .error e => .error e
      | .ok cs => .ok (c :: cs)

/-- Data extraction of `extract_table_data` (src/scraper.py:133-162): rows of
the `tbody`, or no rows when no `tbody` exists. -/
def extractBody (t : Node) : Except ExtractError (List (List Str)) :=
  match findNode t (hasTag "tbody".data) with
  | none => .ok []
  | some b => extractRows (findNodes b (hasTag "tr".data))

/-- The method `NFLStatsScraper.extract_table_data` (src/scraper.py:102-167): locate
`table#data` (raising `ValueError` otherwise), derive the headers, and
extract the body rows. -/
def extract_table_data (doc : Node) : Except ExtractError RawTable :=
  match findTable doc with
  | none => .error .structureError
  | some t =>
    match extractHeaders t with
    | none => .error .attrError
    | some hs =>
      match extractBody t with
      | .error e => .error e
      | .ok d => .ok ⟨hs, d⟩

/-- The body rows the extraction loop ranges over: the `tr` descendants of
the table's `tbody`, or none when no `tbody` exists. -/
def bodyRows (t : Node) : List Node :=
  match findNode t (hasTag "tbody".data) with
  | none => []
  | some b => findNodes b (hasTag "tr".data)

/-- Demonstration data: first header row of the end-to-end scenario
(the category-grouping row). -/
def demoHeaderRow1 : Node :=
  .elem "tr".data none [] [.elem "th".data none [] [.text "Grouping".data]]

/-- Demonstration data: second header row, carrying the real column
labels; the stat label lives in a `small` tag with messy whitespace. -/
def demoHeaderRow2 : Node :=
  .elem "tr".data none []
    [.elem "th".data none [] [.text "Rank".data],
     .elem "th".data none [] [.text "Player".data],
     .elem "th".data none []
       [.elem "small".data none [] [.text "PASS\n  YDS ".data]]]

/-- Demonstration data: the table's `thead`. -/
def demoThead : Node :=
  .elem "thead".data none [] [demoHeaderRow1, demoHeaderRow2]

/-- Demonstration data: the rank cell of the single body row. -/
def demoRankCell : Node :=
  .elem "td".data none [] [.text " 1 ".data]

/-- Demonstration data: the player cell, carrying the `player-label`
marker class, the player link and the parenthesized team. -/
def demoPlayerCell : Node :=
  .elem "td".data none ["player-label".data]
    [.elem "a".data none [] [.text "Tom Brady".data],
     .elem "small".data none [] [.text "(TB)".data]]

/-- Demonstration data: the single stat cell. -/
def demoStatCell : Node :=
  .elem "td".data none [] [.text "4000".data]

/-- Demonstration data: the single body row. -/
def demoBodyRow : Node :=
  .elem "tr".data none [] [demoRankCell, demoPlayerCell, demoStatCell]

/-- Demonstration data: the table's `tbody`. -/
def demoTbody : Node :=
  .elem "tbody".data none [] [demoBodyRow]

/-- A demonstration document's stats table for the end-to-end scenario. -/
def demoTable : Node :=
  .elem "table".data (some "data".data) [] [demoThead, demoTbody]

/-- The demonstration document wrapping `demoTable`. -/
def demoDoc : Node :=
  .elem "html".data none [] [.elem "body".data none [] [demoTable]]

/-- The raw table extracted from `demoDoc`. -/
def demoRaw : RawTable :=
  ⟨["Rank".data, "Player".data, "Team".data, "PASS YDS".data],
   [["1".data, "Tom Brady".data, "TB".data, "4000".data]]⟩

/-- The structured table obtained from `demoRaw` by `parse_table`:
identity columns stay strings, the rank and stat columns are coerced to
numbers. -/
def demoDF : DataFrame :=
  ⟨["Rank".data, "Player".data, "Team".data, "PASS YDS".data],
   [.nums [some ⟨1, 0⟩], .strs ["Tom Brady".data], .strs ["TB".data],
    .nums [some ⟨4000, 0⟩]]⟩

/-- A document whose stats table has a body row with a single cell. -/
def shortRowDoc : Node :=
  .elem "html".data none []
    [.elem "table".data (some "data".data) []
      [.elem "thead".data none []
        [.elem "tr".data none [] [],
         .elem "tr".data none [] []],
       .elem "tbody".data none []
         [.elem "tr".data none [] [.elem "td".data none [] [.text "1".data]]]]]

/-- The state of the path handed to `validate_csv` (src/validate.py):
either no file exists there, or a file of `size` bytes whose CSV parse
yields `rows` (header row included).  `os.path.exists`, `os.path.getsize`
and `csv.reader` are modelled by this data. -/
inductive CsvFS where
  | missing
  | present (size : Nat) (rows : List (List Str))

/-- Render a natural number in decimal, as Python string interpolation
does. -/
def natStr (n : Nat) : Str := Nat.toDigits 10 n

/-- The error added for a row whose cell count differs from the header's
(the interpolated `Row .. has .. columns, expected ..` message). -/
def rowCountMsg (rowNum actual expected : Nat) : Str :=
  "Row ".data ++ natStr rowNum ++ " has ".data ++ natStr actual ++
    " columns, expected ".data ++ natStr expected

/-- The error added for an empty cell
(the interpolated `Empty value found in row .., column ..` message). -/
def emptyCellMsg (rowNum colNum : Nat) : Str :=
  "Empty value found in row ".data ++ natStr rowNum ++ ", column ".data ++ natStr colNum

/-- The accumulated body errors of `validate_csv` (src/validate.py:46-57):
`for row_num, row in enumerate(reader, start=2)` adds a column-count
error per offending row, then `for col_num, value in enumerate(row)` adds
an empty-value error per cell blank after stripping. -/
def bodyErrors (expected : Nat) (dataRows : List (List Str)) : List Str :=
  (dataRows.enumFrom 2).flatMap (fun p =>
    (if p.2.length ≠ expected then [rowCountMsg p.1 p.2.length expected] else [])
      ++ p.2.enum.filterMap (fun q =>
        if strip q.2 = [] then some (emptyCellMsg p.1 (q.1 + 1)) else none))

/-- The function `validate_csv` (src/validate.py:5-62): fatal prechecks (missing file,
zero-byte file, missing header row) return one error immediately; the
duplicate-header check and the body scan accumulate; validity is an empty
error list. -/
def validate_csv : CsvFS → Bool × List Str
  | .missing => (false, ["File does not exist".data])
  | .present size rows =>
    if size = 0 then (false, ["File is empty".data])
    else
      match rows with
      | [] => (false, ["CSV file has no header row".data])
      | header :: dataRows =>
        if header.isEmpty then (false, ["CSV file has no header row".data])
        else
          let dupErrs :=
            if header.dedup.length ≠ header.length
              then ["CSV contains duplicate column headers".data] else []
          let errors := dupErrs ++ bodyErrors header.length dataRows
          if errors.isEmpty then (true, []) else (false, errors)

/-- The index computation `yaconIdxs` generalized over the enumeration start. -/
def yaconIdxsFrom (n : Nat) (hs : List Str) : List Nat :=
  ((hs.enumFrom n).filter (fun p => p.2 == "YACON".data)).map (fun p => p.1)

example : validate_csv .missing = (false, ["File does not exist".data]) := rfl

example : validate_csv (.present 0 []) = (false, ["File is empty".data]) := rfl

example : validate_csv (.present 30
    [["Player".data, "Team".data, "Pass Yds".data], ["Tom".data, "TB".data]])
    = (false, ["Row 2 has 2 columns, expected 3".data]) := by decide

example : validate_csv (.present 30
    [["Player".data, "Player".data], ["Tom".data, " ".data]])
    = (false, ["CSV contains duplicate column headers".data,
               "Empty value found in row 2, column 2".data]) := by decide

example : validate_csv (.present 30
    [["Player".data, "Team".data], ["Tom".data, "TB".data]]) = (true, []) := by decide

example : extract_table_data demoDoc = .ok demoRaw := rfl

example : extract_table_data (.elem "html".data none [] []) = .error .structureError := rfl

example : extract_table_data shortRowDoc = .error .indexError := rfl

example : findTable demoDoc = some demoTable := rfl

example : parseNumeric "4000".data = some ⟨4000, 0⟩ := by decide

example : parseNumeric (stripPctCommas "4,000".data) = some ⟨4000, 0⟩ := by decide

example : parseNumeric (stripPctCommas "65.2%".data) = some ⟨652, 1⟩ := by decide

example : parseNumeric "N/A".data = none := by decide

example : parseNumeric "".data = none := by decide

example : parseNumeric "-3.5".data = some ⟨-35, 1⟩ := by decide

/-- Claim C2: numeric coercion maps `"4,000"` to the number `4000`,
`"65.2%"` to `65.2`, and `"N/A"` and `""` to the missing marker; it is
idempotent on every column, and an already-numeric column is returned
unchanged. -/
theorem C2_numeric_coercion_values_and_idempotence :
    convert_to_numeric (.strs ["4,000".data, "65.2%".data, "N/A".data, "".data])
        = .nums [some ⟨4000, 0⟩, some ⟨652, 1⟩, none, none]
      ∧ Dec.toRat ⟨4000, 0⟩ = 4000
      ∧ Dec.toRat ⟨652, 1⟩ = 65.2
      ∧ (∀ s : Series, convert_to_numeric (convert_to_numeric s) = convert_to_numeric s)
      ∧ (∀ l : List (Option Dec), convert_to_numeric (.nums l) = .nums l) := by
  refine ⟨by decide, by norm_num [Dec.toRat], by norm_num [Dec.toRat], ?_, fun l => rfl⟩
  intro s
  cases s <;> rfl

/-- Claim C7: `validate_csv` on a missing path returns immediately with the
single error `File does not exist`, and on an existing zero-byte file with
the single error `File is empty`; in each case exactly one error string is
produced. -/
theorem C7_validate_csv_fatal_prechecks :
    validate_csv .missing = (false, ["File does not exist".data])
      ∧ (validate_csv .missing).2.length = 1
      ∧ (∀ rows, validate_csv (.present 0 rows) = (false, ["File is empty".data]))
      ∧ (∀ rows, (validate_csv (.present 0 rows)).2.length = 1) :=
  ⟨rfl, rfl, fun _ => rfl, fun _ => rfl⟩

/-- Claim C8: on every document holding no `table` element with id `data`,
`extract_table_data` fails with the structure error (the `ValueError` of
src/scraper.py:112), producing no partial table. -/
theorem C8_missing_table_is_structure_error (doc : Node)
    (h : ∀ n ∈ descendants doc, (hasTag "table".data n && hasId "data".data n) = false) :
    extract_table_data doc = .error .structureError := by
  have hnil : (descendants doc).filter
      (fun n => hasTag "table".data n && hasId "data".data n) = [] := by
    rw [List.filter_eq_nil_iff]
    intro a ha
    simp [h a ha]
  have hf : findTable doc = none := by
    simp [findTable, findNode, findNodes, hnil]
  simp [extract_table_data, hf]

/-- Witness for C8 at a concrete table-free document. -/
theorem C8_missing_table_is_structure_error_witness :
    extract_table_data
        (.elem "html".data none [] [.elem "p".data none [] [.text "x".data]])
      = .error .structureError :=
  C8_missing_table_is_structure_error _ (by decide)

theorem yaconIdxs_eq_from (hs : List Str) : yaconIdxs hs = yaconIdxsFrom 0 hs := rfl

theorem yaconIdxsFrom_cons (n : Nat) (a : Str) (l : List Str) :
    yaconIdxsFrom n (a :: l) =
      if a = "YACON".data then n :: yaconIdxsFrom (n + 1) l else yaconIdxsFrom (n + 1) l := by
  by_cases h : a = "YACON".data <;>
    simp [yaconIdxsFrom, List.enumFrom, List.filter_cons, h]

theorem yaconIdxsFrom_append (pre l : List Str) (n : Nat) (h : "YACON".data ∉ pre) :
    yaconIdxsFrom n (pre ++ l) = yaconIdxsFrom (n + pre.length) l := by
  induction pre generalizing n with
  | nil => simp
  | cons a t ih =>
    have ha : a ≠ "YACON".data := fun e => h (by simp [e])
    rw [List.cons_append, yaconIdxsFrom_cons, if_neg ha,
      ih (n + 1) (fun hm => h (List.mem_cons_of_mem _ hm))]
    congr 1
    simp
    omega

theorem yaconIdxsFrom_nil (l : List Str) (n : Nat) (h : "YACON".data ∉ l) :
    yaconIdxsFrom n l = [] := by
  induction l generalizing n with
  | nil => rfl
  | cons a t ih =>
    have ha : a ≠ "YACON".data := fun e => h (by simp [e])
    rw [yaconIdxsFrom_cons, if_neg ha]
    exact ih (n + 1) (fun hm => h (List.mem_cons_of_mem _ hm))

theorem yaconIdxsFrom_length (l : List Str) (n : Nat) :
    (yaconIdxsFrom n l).length = l.count "YACON".data := by
  induction l generalizing n with
  | nil => rfl
  | cons a t ih =>
    rw [yaconIdxsFrom_cons]
    by_cases h : a = "YACON".data <;>
      simp [h, List.count_cons, ih (n + 1)]

theorem set_append_len {α : Type} (pre : List α) (a : α) (post : List α) (b : α) :
    (pre ++ a :: post).set pre.length b = pre ++ b :: post := by
  induction pre with
  | nil => rfl
  | cons x t ih => simp [List.cons_append, ih]

theorem clean_data_headers (df : DataFrame) :
    (clean_data df).headers = renameYacon df.headers := rfl

/-- Claim C1 (amended): only the header name `YACON` is disambiguated.
When `YACON` occurs at exactly two positions the first becomes
`YACON (Rushing)` and the second `YACON (Receiving)`, in original order,
every other header name unchanged; a header list in which `YACON` occurs
any number of times other than two — in particular three or more times —
is left entirely unchanged, as is any other duplicated name. -/
theorem C1_yacon_disambiguation (cols : List Series) (pre mid post : List Str)
    (h1 : "YACON".data ∉ pre) (h2 : "YACON".data ∉ mid) (h3 : "YACON".data ∉ post) :
    (clean_data ⟨pre ++ "YACON".data :: (mid ++ "YACON".data :: post), cols⟩).headers
        = pre ++ "YACON (Rushing)".data :: (mid ++ "YACON (Receiving)".data :: post)
      ∧ ∀ (hs : List Str) (cols2 : List Series), hs.count "YACON".data ≠ 2 →
          (clean_data ⟨hs, cols2⟩).headers = hs := by
  constructor
  · rw [clean_data_headers]
    have hidx : yaconIdxs (pre ++ "YACON".data :: (mid ++ "YACON".data :: post))
        = [pre.length, pre.length + 1 + mid.length] := by
      rw [yaconIdxs_eq_from, yaconIdxsFrom_append pre _ 0 h1, Nat.zero_add,
        yaconIdxsFrom_cons, if_pos rfl, yaconIdxsFrom_append mid _ (pre.length + 1) h2,
        yaconIdxsFrom_cons, if_pos rfl, yaconIdxsFrom_nil post _ h3]
    have hc : (pre ++ "YACON".data :: (mid ++ "YACON".data :: post)).contains "YACON".data
        = true := by
      simp [List.contains]
    rw [renameYacon, if_pos hc, hidx]
    show ((pre ++ "YACON".data :: (mid ++ "YACON".data :: post)).set pre.length
        "YACON (Rushing)".data).set (pre.length + 1 + mid.length) "YACON (Receiving)".data = _
    rw [set_append_len]
    have hsplit : pre ++ "YACON (Rushing)".data :: (mid ++ "YACON".data :: post)
        = (pre ++ "YACON (Rushing)".data :: mid) ++ "YACON".data :: post := by
      simp
    have hlen : pre.length + 1 + mid.length = (pre ++ "YACON (Rushing)".data :: mid).length := by
      simp
      omega
    rw [hsplit, hlen, set_append_len]
    simp
  · intro hs cols2 hcnt
    rw [clean_data_headers]
    by_cases hc : hs.contains "YACON".data
    · have hlen : (yaconIdxs hs).length ≠ 2 := by
        rw [yaconIdxs_eq_from, yaconIdxsFrom_length]
        exact hcnt
      rcases hl : yaconIdxs hs with _ | ⟨a, _ | ⟨b, _ | ⟨c, tl⟩⟩⟩
      · simp [renameYacon, hc, hl]
      · simp [renameYacon, hc, hl]
      · exact absurd (by rw [hl]; rfl) hlen
      · simp [renameYacon, hc, hl]
    · simp only [renameYacon]
      rw [if_neg hc]

/-- Counterexample to C1 as stated: a header name other than `YACON`
occurring exactly twice is not relabelled by `clean_data`. -/
theorem C1_generic_duplicate_unrenamed :
    (clean_data ⟨["A".data, "A".data], [.strs ["1".data], .strs ["2".data]]⟩).headers
        = ["A".data, "A".data]
      ∧ (["A".data, "A".data] : List Str)
          ≠ ["A (Rushing)".data, "A (Receiving)".data] := by
  exact ⟨rfl, by decide⟩

/-- Witness for C1 at concrete header lists. -/
theorem C1_yacon_disambiguation_witness :
    (clean_data ⟨["PTS".data, "YACON".data, "X".data, "YACON".data], []⟩).headers
        = ["PTS".data, "YACON (Rushing)".data, "X".data, "YACON (Receiving)".data]
      ∧ (clean_data ⟨["YACON".data, "YACON".data, "YACON".data], []⟩).headers
        = ["YACON".data, "YACON".data, "YACON".data] := by
  have h := C1_yacon_disambiguation [] ["PTS".data] ["X".data] []
    (by decide) (by decide) (by decide)
  exact ⟨h.1, h.2 _ [] (by decide)⟩

/-- Claim C5: numeric coercion never fails on a malformed cell (the cell
becomes the missing marker), and `validate_data` raises exactly when the
frame has zero rows or `Player` or `Team` is absent, returning `True`
otherwise. -/
theorem C5_coercion_total_and_validate_data_iff :
    (∀ l : List Str, ∃ out : List (Option Dec),
        convert_to_numeric (.strs l) = .nums out
          ∧ out.length = l.length
          ∧ ∀ (k : Nat) (s : Str), l[k]? = some s → parseNumeric (stripPctCommas s) = none →
              out[k]? = some none)
      ∧ (∀ df : DataFrame,
          ((∃ msg, validate_data df = .error msg) ↔
            (df.nrows = 0 ∨ "Player".data ∉ df.headers ∨ "Team".data ∉ df.headers))
            ∧ (df.nrows ≠ 0 → "Player".data ∈ df.headers → "Team".data ∈ df.headers →
                validate_data df = .ok true)) := by
  constructor
  · intro l
    refine ⟨l.map (fun s => parseNumeric (stripPctCommas s)), rfl, l.length_map _, ?_⟩
    intro k s hk hnone
    simp [List.getElem?_map, hk, hnone]
  · intro df
    by_cases h0 : df.nrows = 0
    · have he : df.emptyDf = true := by simp [DataFrame.emptyDf, h0]
      constructor
      · simp [validate_data, he]
        exact Or.inl h0
      · intro hn
        exact absurd h0 hn
    · have he : df.emptyDf = false := by simp [DataFrame.emptyDf, h0]
      by_cases hp : "Player".data ∈ df.headers <;> by_cases ht : "Team".data ∈ df.headers <;>
        simp [validate_data, he, List.filter, List.contains, hp, ht, h0]

/-- Witness for C5 at a concrete malformed column and a concrete valid
frame. -/
theorem C5_coercion_total_and_validate_data_iff_witness :
    (∃ out : List (Option Dec),
        convert_to_numeric (.strs ["bad".data]) = .nums out
          ∧ out.length = 1
          ∧ ∀ (k : Nat) (s : Str), (["bad".data] : List Str)[k]? = some s →
              parseNumeric (stripPctCommas s) = none → out[k]? = some none)
      ∧ validate_data ⟨["Player".data, "Team".data], [.strs ["Tom".data]]⟩ = .ok true := by
  refine ⟨C5_coercion_total_and_validate_data_iff.1 ["bad".data], ?_⟩
  exact (C5_coercion_total_and_validate_data_iff.2 _).2 (by decide) (by decide) (by decide)

theorem extractRows_ok_get {rs : List Node} {ds : List (List Str)}
    (h : extractRows rs = .ok ds) :
    ∀ (k : Nat) (r : Node), rs[k]? = some r →
      ∃ c, extractRow r = .ok c ∧ ds[k]? = some c := by
  induction rs generalizing ds with
  | nil => intro k r hk; simp at hk
  | cons r0 rs ih =>
    intro k r hk
    simp only [extractRows] at h
    cases h1 : extractRow r0 with
    | error e => rw [h1] at h; simp at h
    | ok c =>
      rw [h1] at h
      cases h2 : extractRows rs with
      | error e => rw [h2] at h; simp at h
      | ok cs =>
        rw [h2] at h
        have hds : ds = c :: cs := by
          cases h
          rfl
        subst hds
        cases k with
        | zero =>
          simp at hk
          subst hk
          exact ⟨c, h1, by simp⟩
        | succ k =>
          simp only [List.getElem?_cons_succ] at hk ⊢
          exact ih h2 k r hk

theorem exists_two_head {α : Type} {l : List α} (h : 2 ≤ l.length) :
    ∃ a b t, l = a :: b :: t := by
  rcases l with _ | ⟨a, _ | ⟨b, t⟩⟩
  · simp at h
  · simp at h
  · exact ⟨a, b, t, rfl⟩

theorem extractRows_total (rs : List Node)
    (h : ∀ r ∈ rs, 2 ≤ (findNodes r (hasTag "td".data)).length) :
    ∃ ds, extractRows rs = .ok ds := by
  induction rs with
  | nil => exact ⟨[], rfl⟩
  | cons r0 rs ih =>
    obtain ⟨ds, hds⟩ := ih (fun r hr => h r (List.mem_cons_of_mem _ hr))
    obtain ⟨a, b, t, ht⟩ := exists_two_head (h r0 (List.mem_cons_self _ _))
    refine ⟨((strip (innerText a) :: playerTeam b) ++ t.map (fun c => strip (innerText c)))
      :: ds, ?_⟩
    simp only [extractRows, extractRow, ht, hds]

/-- Claim C3: on a document whose stats table has a two-row header, the
extracted header sequence is exactly `Rank`, `Player`, `Team` followed by
one entry per header cell beyond the first two of the second header row:
the whitespace-collapsed nested `small` text when a `small` tag is
present, else the cell's full stripped text. -/
theorem C3_two_row_header_sequence (doc t hd r0 r1 : Node) (rs : List Node) (rt : RawTable)
    (hfind : findTable doc = some t)
    (hthead : findNode t (hasTag "thead".data) = some hd)
    (hrows : findNodes hd (hasTag "tr".data) = r0 :: r1 :: rs)
    (hok : extract_table_data doc = .ok rt) :
    rt.headers = "Rank".data :: "Player".data :: "Team".data ::
      ((findNodes r1 (hasTag "th".data)).drop 2).map (fun c =>
        match findNode c (hasTag "small".data) with
        | some sm => collapseWs (strip (innerText sm))
        | none => strip (innerText c)) := by
  have hh : extractHeaders t = some ("Rank".data :: "Player".data :: "Team".data ::
      ((findNodes r1 (hasTag "th".data)).drop 2).map thLabel) := by
    simp only [extractHeaders, hthead, hrows]
  simp only [extract_table_data, hfind, hh] at hok
  cases hb : extractBody t with
  | error e => rw [hb] at hok; simp at hok
  | ok d =>
    rw [hb] at hok
    cases hok
    rfl

/-- Witness for C3 at the concrete demonstration document. -/
theorem C3_two_row_header_sequence_witness :
    demoRaw.headers = "Rank".data :: "Player".data :: "Team".data ::
      ((findNodes demoHeaderRow2 (hasTag "th".data)).drop 2).map (fun c =>
        match findNode c (hasTag "small".data) with
        | some sm => collapseWs (strip (innerText sm))
        | none => strip (innerText c)) :=
  C3_two_row_header_sequence demoDoc demoTable demoThead demoHeaderRow1 demoHeaderRow2
    [] demoRaw rfl rfl rfl rfl

/-- Claim C4: every extracted body row is the rank cell's stripped text,
then the player name and team reconstructed from cell 1 (nested link text
and de-parenthesized nested `small` text under the `player-label` marker
class, empty strings otherwise), then the stripped text of every later
cell; and the end-to-end scenario: the one-row demonstration table yields
`Tom Brady` / `TB` and the stat column coerced to the number `4000`. -/
theorem C4_player_cell_reconstruction (doc t b row c0 c1 : Node) (rest : List Node)
    (k : Nat) (rt : RawTable)
    (hfind : findTable doc = some t)
    (htbody : findNode t (hasTag "tbody".data) = some b)
    (hok : extract_table_data doc = .ok rt)
    (hrow : (findNodes b (hasTag "tr".data))[k]? = some row)
    (hcells : findNodes row (hasTag "td".data) = c0 :: c1 :: rest) :
    rt.data[k]? = some ((strip (innerText c0) ::
      (if hasClass "player-label".data c1 then
        [(match findNode c1 (hasTag "a".data) with
          | some a => strip (innerText a)
          | none => []),
         (match findNode c1 (hasTag "small".data) with
          | some sm => stripParens (strip (innerText sm))
          | none => [])]
      else [[], []]))
      ++ rest.map (fun c => strip (innerText c)))
    ∧ (extract_table_data demoDoc = .ok demoRaw ∧ parse_table demoRaw = demoDF) := by
  refine ⟨?_, rfl, by decide⟩
  cases he : extractHeaders t with
  | none => simp [extract_table_data, hfind, he] at hok
  | some hs =>
    simp only [extract_table_data, hfind, he] at hok
    cases hb : extractBody t with
    | error e => rw [hb] at hok; simp at hok
    | ok d =>
      rw [hb] at hok
      cases hok
      simp only [extractBody, htbody] at hb
      obtain ⟨c, hc, hget⟩ := extractRows_ok_get hb k row hrow
      rw [extractRow, hcells] at hc
      cases hc
      exact hget

/-- Witness for C4 at the concrete demonstration document. -/
theorem C4_player_cell_reconstruction_witness :
    demoRaw.data[0]? = some ((strip (innerText demoRankCell) ::
      (if hasClass "player-label".data demoPlayerCell then
        [(match findNode demoPlayerCell (hasTag "a".data) with
          | some a => strip (innerText a)
          | none => []),
         (match findNode demoPlayerCell (hasTag "small".data) with
          | some sm => stripParens (strip (innerText sm))
          | none => [])]
      else [[], []]))
      ++ [demoStatCell].map (fun c => strip (innerText c)))
    ∧ (extract_table_data demoDoc = .ok demoRaw ∧ parse_table demoRaw = demoDF) :=
  C4_player_cell_reconstruction demoDoc demoTable demoTbody demoBodyRow
    demoRankCell demoPlayerCell [demoStatCell] 0 demoRaw rfl rfl rfl rfl rfl

/-- Claim C10: whenever the stats table is located, its header phase
succeeds and every body row holds at least two `td` cells, the
unconditional `cells[0]`/`cells[1]` accesses are in bounds and extraction
returns a raw table; and on a concrete document whose table body has a
one-cell row, extraction fails with the uncaught indexing error, which is
distinct from the missing-table structure error. -/
theorem C10_unconditional_cell_indexing (doc t : Node) (hs : List Str)
    (hfind : findTable doc = some t)
    (hhead : extractHeaders t = some hs)
    (hcells : ∀ row ∈ bodyRows t, 2 ≤ (findNodes row (hasTag "td".data)).length) :
    (∃ rt, extract_table_data doc = .ok rt)
      ∧ (extract_table_data shortRowDoc = .error .indexError
        ∧ ExtractError.indexError ≠ ExtractError.structureError) := by
  refine ⟨?_, rfl, by decide⟩
  cases hb : findNode t (hasTag "tbody".data) with
  | none =>
    refine ⟨⟨hs, []⟩, ?_⟩
    simp only [extract_table_data, hfind, hhead, extractBody, hb]
  | some b =>
    have hrows : ∀ row ∈ findNodes b (hasTag "tr".data),
        2 ≤ (findNodes row (hasTag "td".data)).length := by
      intro row hrow
      apply hcells
      simp only [bodyRows, hb]
      exact hrow
    obtain ⟨ds, hds⟩ := extractRows_total _ hrows
    refine ⟨⟨hs, ds⟩, ?_⟩
    simp only [extract_table_data, hfind, hhead, extractBody, hb, hds]

/-- Witness for C10 at the concrete demonstration document. -/
theorem C10_unconditional_cell_indexing_witness :
    (∃ rt, extract_table_data demoDoc = .ok rt)
      ∧ (extract_table_data shortRowDoc = .error .indexError
        ∧ ExtractError.indexError ≠ ExtractError.structureError) :=
  C10_unconditional_cell_indexing demoDoc demoTable demoRaw.headers rfl rfl (by decide)

theorem nodup_iff_dedup_length {α : Type} [DecidableEq α] (l : List α) :
    l.dedup.length = l.length ↔ l.Nodup := by
  constructor
  · intro h
    exact List.dedup_eq_self.mp ((List.dedup_sublist l).eq_of_length h)
  · intro h
    rw [List.dedup_eq_self.mpr h]

theorem enumFrom_flatMap_shift {α β : Type} (f : Nat → α → List β) (n : Nat) :
    ∀ (l : List α) (m : Nat),
      (l.enumFrom (n + m)).flatMap (fun p => f p.1 p.2)
        = (l.enumFrom m).flatMap (fun p => f (p.1 + n) p.2)
  | [], _ => by simp
  | a :: l, m => by
    simp only [List.enumFrom, List.flatMap_cons]
    have h1 : n + m + 1 = n + (m + 1) := by omega
    rw [h1, enumFrom_flatMap_shift f n l (m + 1)]
    have h2 : n + m = m + n := by omega
    rw [h2]

theorem bodyErrors_eq_enum (expected : Nat) (dataRows : List (List Str)) :
    bodyErrors expected dataRows = dataRows.enum.flatMap (fun p =>
      (if p.2.length ≠ expected then [rowCountMsg (p.1 + 2) p.2.length expected] else [])
        ++ p.2.enum.filterMap (fun q =>
          if strip q.2 = [] then some (emptyCellMsg (p.1 + 2) (q.1 + 1)) else none)) := by
  have h := enumFrom_flatMap_shift
    (fun i row =>
      (if row.length ≠ expected then [rowCountMsg i row.length expected] else [])
        ++ row.enum.filterMap (fun q =>
          if strip q.2 = [] then some (emptyCellMsg i (q.1 + 1)) else none))
    2 dataRows 0
  simpa [bodyErrors, List.enum] using h

/-- Claim C6: for a nonempty file with a header row, `validate_csv`
accumulates without short-circuiting: one error for a duplicated header
name, one error per data row with the wrong cell count (naming the
1-indexed row number, data starting at row 2, and the actual and expected
counts), one error per cell that is blank after stripping (naming its row
and 1-indexed column); validity is exactly an empty error list, and a
fully well-formed file yields `(true, [])`. -/
theorem C6_validate_csv_accumulating (size : Nat) (header : List Str)
    (dataRows : List (List Str)) (hsz : size ≠ 0) (hhd : header ≠ []) :
    ((validate_csv (.present size (header :: dataRows))).1 = true
        ↔ (validate_csv (.present size (header :: dataRows))).2 = [])
      ∧ (validate_csv (.present size (header :: dataRows))).2
          = (if header.Nodup then [] else ["CSV contains duplicate column headers".data])
            ++ dataRows.enum.flatMap (fun p =>
              (if p.2.length ≠ header.length
                then [rowCountMsg (p.1 + 2) p.2.length header.length] else [])
                ++ p.2.enum.filterMap (fun q =>
                  if strip q.2 = [] then some (emptyCellMsg (p.1 + 2) (q.1 + 1)) else none))
      ∧ ((header.Nodup ∧ ∀ row ∈ dataRows, row.length = header.length
            ∧ ∀ c ∈ row, strip c ≠ []) →
          validate_csv (.present size (header :: dataRows)) = (true, [])) := by
  have hne : header.isEmpty = false := by
    cases header with
    | nil => exact absurd rfl hhd
    | cons a t => rfl
  have hdup : (if header.dedup.length ≠ header.length
        then ["CSV contains duplicate column headers".data] else [])
      = (if header.Nodup then [] else ["CSV contains duplicate column headers".data]) := by
    by_cases hnd : header.Nodup
    · rw [if_neg (not_not_intro ((nodup_iff_dedup_length header).mpr hnd)), if_pos hnd]
    · rw [if_pos (fun he => hnd ((nodup_iff_dedup_length header).mp he)), if_neg hnd]
  have hval : validate_csv (.present size (header :: dataRows))
      = (if ((if header.dedup.length ≠ header.length
            then ["CSV contains duplicate column headers".data] else [])
          ++ bodyErrors header.length dataRows).isEmpty
        then (true, [])
        else (false, (if header.dedup.length ≠ header.length
            then ["CSV contains duplicate column headers".data] else [])
          ++ bodyErrors header.length dataRows)) := by
    simp only [validate_csv, if_neg hsz, hne]
    rfl
  obtain ⟨E, hEdef⟩ : ∃ E, (if header.dedup.length ≠ header.length
        then ["CSV contains duplicate column headers".data] else [])
      ++ bodyErrors header.length dataRows = E := ⟨_, rfl⟩
  rw [hEdef] at hval
  have h12 : (validate_csv (.present size (header :: dataRows))).2 = E
      ∧ ((validate_csv (.present size (header :: dataRows))).1 = true ↔ E = []) := by
    cases hie : E.isEmpty with
    | false =>
      rw [hval, if_neg (by simp [hie])]
      exact ⟨rfl, by simp [List.isEmpty_eq_false.mp hie]⟩
    | true =>
      rw [hval, if_pos (by simp [hie])]
      exact ⟨(List.isEmpty_iff.mp hie).symm, by simp [List.isEmpty_iff.mp hie]⟩
  refine ⟨?_, ?_, ?_⟩
  · rw [h12.1]
    exact h12.2
  · rw [h12.1, ← hEdef, hdup, bodyErrors_eq_enum]
  · rintro ⟨hnd, hall⟩
    have hbody : bodyErrors header.length dataRows = [] := by
      rw [bodyErrors]
      rw [List.flatMap_eq_nil_iff]
      rw [List.forall_mem_enumFrom]
      intro i hi
      have hrow := hall (dataRows[i]) (dataRows.getElem_mem hi)
      rw [List.append_eq_nil]
      constructor
      · rw [if_neg (not_not_intro hrow.1)]
      · rw [List.filterMap_eq_nil_iff]
        rw [List.forall_mem_enum]
        intro j hj
        rw [if_neg (hrow.2 (dataRows[i][j]) (List.getElem_mem hj))]
    have hEnil : E = [] := by
      rw [← hEdef, hbody, if_neg (not_not_intro ((nodup_iff_dedup_length header).mpr hnd))]
      rfl
    rw [hval, if_pos (by simp [hEnil])]

/-- Witness for C6 at a concrete well-formed file and a concrete file with
a short row and a blank cell. -/
theorem C6_validate_csv_accumulating_witness :
    ((validate_csv (.present 30
        (["Player".data, "Team".data] :: [["Tom".data, "TB".data]]))).1 = true
      ↔ (validate_csv (.present 30
        (["Player".data, "Team".data] :: [["Tom".data, "TB".data]]))).2 = [])
    ∧ (validate_csv (.present 30
          (["Player".data, "Team".data] :: [["Tom".data, "TB".data]]))).2
        = (if (["Player".data, "Team".data] : List Str).Nodup
            then [] else ["CSV contains duplicate column headers".data])
          ++ ([["Tom".data, "TB".data]] : List (List Str)).enum.flatMap (fun p =>
            (if p.2.length ≠ (["Player".data, "Team".data] : List Str).length
              then [rowCountMsg (p.1 + 2) p.2.length
                (["Player".data, "Team".data] : List Str).length] else [])
              ++ p.2.enum.filterMap (fun q =>
                if strip q.2 = [] then some (emptyCellMsg (p.1 + 2) (q.1 + 1)) else none))
    ∧ (((["Player".data, "Team".data] : List Str).Nodup
          ∧ ∀ row ∈ ([["Tom".data, "TB".data]] : List (List Str)),
              row.length = (["Player".data, "Team".data] : List Str).length
                ∧ ∀ c ∈ row, strip c ≠ []) →
        validate_csv (.present 30
          (["Player".data, "Team".data] :: [["Tom".data, "TB".data]])) = (true, [])) :=
  C6_validate_csv_accumulating 30 ["Player".data, "Team".data] [["Tom".data, "TB".data]]
    (by decide) (by decide)

example : renameYacon ["A".data, "YACON".data, "YACON".data]
    = ["A".data, "YACON (Rushing)".data, "YACON (Receiving)".data] := by decide

example : renameYacon ["YACON".data, "YACON".data, "YACON".data]
    = ["YACON".data, "YACON".data, "YACON".data] := by decide

example : renameYacon ["A".data, "A".data] = ["A".data, "A".data] := by decide

example : validate_data ⟨["Player".data], [.strs ["x".data]]⟩
    = .error ("Missing required columns".data) := rfl

example : parse_table ⟨["Rank".data, "Player".data, "Team".data, "YDS".data],
    [["1".data, "Tom Brady".data, "TB".data, "4000".data]]⟩
    = ⟨["Rank".data, "Player".data, "Team".data, "YDS".data],
       [.nums [some ⟨1, 0⟩], .strs ["Tom Brady".data], .strs ["TB".data],
        .nums [some ⟨4000, 0⟩]]⟩ := by decide
